import Mathlib

/-! Verification of the NeuralSync AI communication bus
(`bus/ai_bus.py`, full-featured variant) against its
natural-language specification.

The Python source is shallowly embedded: the mutable dictionaries of
`ConnectionManager` become explicit state (association lists for the
insertion-ordered `agents` dict, functions for the remaining dicts),
WebSocket channels become an explicit `Sock → Channel` map recording the
envelopes handed to each channel, and `time.time()` becomes an explicit
rational-valued `now` parameter threaded through the handlers (float
rounding is not modelled; the routing and rate-limiting logic is
arithmetic-exact).  Outbound sends mirror the source's `send_message`,
which catches every exception: a send to an unhealthy channel silently
drops the envelope and never fails its caller.  Observational side
channels of the source — logging, Prometheus metrics, and the optional
Redis mirror — have no effect on bus behaviour and are not modelled.
-/

namespace AIBus

/-- JSON-like payload values: the `content` / `metadata` fields of a bus
message hold arbitrary structured data (`Any` in the source). -/
inductive JVal where
  | null : JVal
  | bool (b : Bool) : JVal
  | num (q : ℚ) : JVal
  | str (s : String) : JVal
  | arr (l : List JVal) : JVal
  | obj (l : List (String × JVal)) : JVal

/-- Python truthiness for JSON values, as used by the source's
`if not all([...])` field validation: `None`, `False`, `0`, `""`, `[]`
and `{}` are falsy. -/
def JVal.truthy : JVal → Bool
  | .null => false
  | .bool b => b
  | .num q => q != 0
  | .str s => s != ""
  | .arr l => !l.isEmpty
  | .obj l => !l.isEmpty

/-- The nine message types of the `MessageType` enum. -/
inductive MessageType where
  | agent_register
  | agent_deregister
  | direct_message
  | broadcast
  | ping
  | pong
  | error
  | ack
  | system
deriving DecidableEq, Repr

/-- The wire value of each enum member, as in the Python `MessageType`
declarations. -/
def MessageType.wire : MessageType → String
  | .agent_register => "agent_register"
  | .agent_deregister => "agent_deregister"
  | .direct_message => "direct_message"
  | .broadcast => "broadcast"
  | .ping => "ping"
  | .pong => "pong"
  | .error => "error"
  | .ack => "ack"
  | .system => "system"

/-- Source `MessageType(s)`: the Enum constructor call in `handle_message`;
raises `ValueError` (here: `none`) on any string that is not a member
value. -/
def messageTypeOfString (s : String) : Option MessageType :=
  if s = "agent_register" then some .agent_register
  else if s = "agent_deregister" then some .agent_deregister
  else if s = "direct_message" then some .direct_message
  else if s = "broadcast" then some .broadcast
  else if s = "ping" then some .ping
  else if s = "pong" then some .pong
  else if s = "error" then some .error
  else if s = "ack" then some .ack
  else if s = "system" then some .system
  else none

/-- Python's `str(message_type)` for an enum member, used in the
"Unknown message type" error text. -/
def MessageType.pyStr : MessageType → String
  | .agent_register => "MessageType.AGENT_REGISTER"
  | .agent_deregister => "MessageType.AGENT_DEREGISTER"
  | .direct_message => "MessageType.DIRECT_MESSAGE"
  | .broadcast => "MessageType.BROADCAST"
  | .ping => "MessageType.PING"
  | .pong => "MessageType.PONG"
  | .error => "MessageType.ERROR"
  | .ack => "MessageType.ACK"
  | .system => "MessageType.SYSTEM"

/-- The `BusMessage` dataclass: the standard envelope format.
`message_id` is never assigned anywhere in the source and stays `None`. -/
structure BusMessage where
  type : MessageType
  from_agent : String
  to_agent : Option String := none
  content : JVal := .null
  timestamp : ℚ
  message_id : Option String := none
  correlation_id : Option String := none
  metadata : JVal := .obj []

/-- Sockets (WebSocket identities) are modelled as opaque numerals. -/
abbrev Sock := Nat

/-- The observable side of one WebSocket channel: its remote address,
whether it is still able to transmit, and the envelopes successfully
handed to it, in order.  A send to an unhealthy channel raises inside
`websocket.send` and is swallowed by `send_message`. -/
structure Channel where
  addr : String
  healthy : Bool
  sent : List BusMessage

/-- The `AgentInfo` dataclass (the registry record for one agent). -/
structure AgentInfo where
  name : String
  websocket : Sock
  connected_at : ℚ
  last_ping : ℚ
  capabilities : List String
  metadata : JVal
  message_count : Nat

/-- The mutable state of `ConnectionManager`.  `agents` is an
association list because the Python dict is insertion-ordered and is
iterated by broadcasts; the other dicts are modelled as functions. -/
structure ConnState where
  connections : String → Option Sock
  agents : List (String × AgentInfo)
  ip_connections : String → Option (List String)
  message_rates : String → List ℚ

/-- The whole observable world: the connection-manager state plus the
channel map. -/
structure World where
  cm : ConnState
  channels : Sock → Channel

/-- Configuration read from the environment at module load:
`NEURALSYNC_RATE_LIMIT` (default 60), `NEURALSYNC_MAX_CONNECTIONS`
(default 10), `NEURALSYNC_ENABLE_RATE_LIMITING` (default true). -/
structure Config where
  rateLimit : Nat := 60
  maxConns : Nat := 10
  enableRateLimiting : Bool := true

/-! Section: Association-list operations mirroring Python dict behaviour -/

/-- Source `d.get(k)` / `d[k]` on the insertion-ordered `agents` dict: the
first entry with this key, if any. -/
def listGet (l : List (String × AgentInfo)) (k : String) : Option AgentInfo :=
  match l with
  | [] => none
  | p :: rest => if p.1 = k then some p.2 else listGet rest k

/-- Source `d[k] = v`: replace in place if the key is present, else append
(new keys go to the end of the iteration order). -/
def listAssign (l : List (String × AgentInfo)) (k : String) (v : AgentInfo) :
    List (String × AgentInfo) :=
  match l with
  | [] => [(k, v)]
  | p :: rest => if p.1 = k then (k, v) :: rest else p :: listAssign rest k v

/-- Source `d.pop(k)`: remove the (first) entry with the given key. -/
def listPop (l : List (String × AgentInfo)) (k : String) :
    List (String × AgentInfo) :=
  match l with
  | [] => []
  | p :: rest => if p.1 = k then rest else p :: listPop rest k

/-- Keys of the agents dict, in iteration order. -/
def keysOf (l : List (String × AgentInfo)) : List String := l.map Prod.fst

/-! Section: Rate limiter (`ConnectionManager.is_rate_limited`) -/

/-- Source `is_rate_limited(agent_name)`: prune the agent's window to
timestamps strictly newer than `now - 60`, write the pruned list back,
then either reject (length at threshold, window not consumed) or append
`now` and allow.  Returns `(limited?, updated rates)`. -/
def is_rate_limited (cfg : Config) (rates : String → List ℚ)
    (agent_name : String) (now : ℚ) : Bool × (String → List ℚ) :=
  if !cfg.enableRateLimiting then (false, rates)
  else
    let minute_ago := now - 60
    let pruned := (rates agent_name).filter (fun t => minute_ago < t)
    if cfg.rateLimit ≤ pruned.length then
      (true, fun n => if n = agent_name then pruned else rates n)
    else
      (false, fun n => if n = agent_name then pruned ++ [now] else rates n)

/-! Section: Connection manager operations -/

/-- Source `register_connection(websocket, connection_id)`: admit a session.
The source first ensures the source address has an entry in
`ip_connections`, then rejects (no further mutation) when the address
already holds `maxConns` sessions; otherwise it records the connection
and adds its id to the address's set. -/
def register_connection (cfg : Config) (w : World) (sock : Sock)
    (connection_id : String) : Bool × World :=
  let client_ip := (w.channels sock).addr
  let ipset := (w.cm.ip_connections client_ip).getD []
  let ipc := fun a => if a = client_ip then some ipset else w.cm.ip_connections a
  if cfg.maxConns ≤ ipset.length then
    (false, { w with cm := { w.cm with ip_connections := ipc } })
  else
    let ipset' := if connection_id ∈ ipset then ipset else ipset ++ [connection_id]
    (true, { w with cm :=
      { w.cm with
        connections := fun c => if c = connection_id then some sock
                                else w.cm.connections c
        ip_connections := fun a => if a = client_ip then some ipset'
                                   else w.cm.ip_connections a } })

/-- Source `deregister_agent(agent_name)`: pop the record if present (metrics
and the Redis mirror are observational and not modelled). -/
def deregister_agent (w : World) (agent_name : String) : Bool × World :=
  if (listGet w.cm.agents agent_name).isSome then
    (true, { w with cm := { w.cm with agents := listPop w.cm.agents agent_name } })
  else
    (false, w)

/-- Source `register_agent(connection_id, agent_name, capabilities, metadata)`:
fails on an unknown connection; otherwise first fully deregisters an
existing record of the same name, then stores a fresh `AgentInfo` bound
to the connection's websocket. -/
def register_agent (w : World) (connection_id : String) (agent_name : String)
    (capabilities : List String) (metadata : JVal) (now : ℚ) : Bool × World :=
  match w.cm.connections connection_id with
  | none => (false, w)
  | some sock =>
    let w1 := if (listGet w.cm.agents agent_name).isSome
              then (deregister_agent w agent_name).2 else w
    let info : AgentInfo :=
      { name := agent_name, websocket := sock, connected_at := now,
        last_ping := now, capabilities := capabilities, metadata := metadata,
        message_count := 0 }
    (true, { w1 with cm :=
      { w1.cm with agents := listAssign w1.cm.agents agent_name info } })

/-- Source `deregister_connection(connection_id, websocket)`: deregister every
agent bound to this websocket, drop the connection, and remove the id
from the source address's set, deleting the set when it empties. -/
def deregister_connection (w : World) (connection_id : String) (sock : Sock) :
    World :=
  let agents_to_remove := (w.cm.agents.filter (fun p => p.2.websocket == sock)).map Prod.fst
  let w1 := agents_to_remove.foldl (fun acc n => (deregister_agent acc n).2) w
  let w2 := { w1 with cm :=
    { w1.cm with connections := fun c => if c = connection_id then none
                                         else w1.cm.connections c } }
  let client_ip := (w2.channels sock).addr
  match w2.cm.ip_connections client_ip with
  | none => w2
  | some s =>
    let s' := s.filter (fun c => c ≠ connection_id)
    { w2 with cm :=
      { w2.cm with ip_connections := fun a =>
          if a = client_ip then (if s'.isEmpty then none else some s')
          else w2.cm.ip_connections a } }

/-- Source `get_agent_websocket(agent_name)`. -/
def get_agent_websocket (w : World) (agent_name : String) : Option Sock :=
  match listGet w.cm.agents agent_name with
  | some info => some info.websocket
  | none => none

/-- Source `get_all_agent_names()`. -/
def get_all_agent_names (w : World) : List String := keysOf w.cm.agents

/-- Source `update_agent_ping(agent_name)`: set `last_ping` if the name is
registered, silent no-op otherwise. -/
def update_agent_ping (w : World) (agent_name : String) (now : ℚ) : World :=
  if (listGet w.cm.agents agent_name).isSome then
    let touched := w.cm.agents.map (fun p =>
      if p.1 = agent_name then (p.1, { p.2 with last_ping := now }) else p)
    { w with cm := { w.cm with agents := touched } }
  else w

/-! Section: Sending -/

/-- Source `send_message(websocket, message)`: hand the serialized envelope to
the channel.  Every exception (a closed/broken channel included) is
caught and logged inside this function, so it never fails its caller:
on an unhealthy channel the envelope is simply dropped. -/
def send_message (w : World) (sock : Sock) (message : BusMessage) : World :=
  if (w.channels sock).healthy then
    { w with channels := fun s =>
        if s = sock then
          { w.channels sock with sent := (w.channels sock).sent ++ [message] }
        else w.channels s }
  else w

/-- Source `send_error(websocket, error_message)`: an `ERROR` envelope from
`"bus"` with content `{"error": error_message}`. -/
def send_error (w : World) (sock : Sock) (error_message : String) (now : ℚ) :
    World :=
  send_message w sock
    { type := .error, from_agent := "bus",
      content := .obj [("error", .str error_message)], timestamp := now }

/-- Source `broadcast_system_message(content, exclude_agent)`: a `SYSTEM`
envelope from `"bus"` delivered to every registered agent whose name
differs from `exclude_agent` (the source compares a `str` against an
`Optional[str]`, so `None` excludes nobody). -/
def broadcast_system_message (w : World) (content : JVal)
    (exclude_agent : Option String) (now : ℚ) : World :=
  let message : BusMessage :=
    { type := .system, from_agent := "bus", content := content, timestamp := now }
  w.cm.agents.foldl
    (fun acc p =>
      if some p.1 ≠ exclude_agent then send_message acc p.2.websocket message
      else acc) w

/-! Section: Inbound frames and the message router -/

/-- Python truthiness of an optional string field fetched with
`dict.get`: absent (`None`) and the empty string are falsy. -/
def optStrTruthy : Option String → Bool
  | some s => s != ""
  | none => false

/-- The fields a parsed inbound JSON object supplies to the handlers,
each fetched with `dict.get` (absent keys give the stated default). -/
structure MessageData where
  type : Option String := none
  agent_name : Option String := none
  from_agent : Option String := none
  to_agent : Option String := none
  content : JVal := .null
  correlation_id : Option String := none
  capabilities : List String := []
  metadata : JVal := .obj []

/-- An inbound frame: either text that fails to parse as JSON, or a
parsed JSON object. -/
inductive RawFrame where
  | malformed
  | parsed (d : MessageData)

/-- Source `handle_agent_register`: validate the name, register through the
connection manager, acknowledge with the full name list, and notify
every other agent with an `agent_joined` system event. -/
def handle_agent_register (w : World) (sock : Sock) (connection_id : String)
    (d : MessageData) (now : ℚ) : Bool × World :=
  if !optStrTruthy d.agent_name then
    (false, send_error w sock "Agent name is required for registration" now)
  else
    let agent_name := d.agent_name.getD ""
    match register_agent w connection_id agent_name d.capabilities d.metadata now with
    | (false, w1) => (false, send_error w1 sock "Failed to register agent" now)
    | (true, w1) =>
      let response : BusMessage :=
        { type := .ack, from_agent := "bus", to_agent := some agent_name,
          content := .obj
            [("message", .str ("Agent " ++ agent_name ++ " registered successfully")),
             ("registered_agents", .arr ((get_all_agent_names w1).map JVal.str))],
          timestamp := now }
      let w2 := send_message w1 sock response
      let w3 := broadcast_system_message w2
        (.obj [("event", .str "agent_joined"),
               ("agent_name", .str agent_name),
               ("capabilities", .arr (d.capabilities.map JVal.str))])
        (some agent_name) now
      (true, w3)

/-- Source `handle_agent_deregister`: validate the name, deregister, and on
success notify the remaining agents with an `agent_left` system event. -/
def handle_agent_deregister (w : World) (sock : Sock) (d : MessageData)
    (now : ℚ) : Bool × World :=
  if !optStrTruthy d.agent_name then
    (false, send_error w sock "Agent name is required for deregistration" now)
  else
    let agent_name := d.agent_name.getD ""
    match deregister_agent w agent_name with
    | (true, w1) =>
      (true, broadcast_system_message w1
        (.obj [("event", .str "agent_left"), ("agent_name", .str agent_name)])
        (some agent_name) now)
    | (false, w1) => (false, w1)

/-- Source `handle_direct_message`: validate the three required fields, consult
(and consume) the rate limiter, resolve the target, forward the envelope
(preserving `correlation_id`), then acknowledge to the sender. -/
def handle_direct_message (cfg : Config) (w : World) (sock : Sock)
    (d : MessageData) (now : ℚ) : Bool × World :=
  if !(optStrTruthy d.from_agent && optStrTruthy d.to_agent && d.content.truthy) then
    (false, send_error w sock
      "Direct message requires from_agent, to_agent, and content" now)
  else
    let from_agent := d.from_agent.getD ""
    let to_agent := d.to_agent.getD ""
    let rl := is_rate_limited cfg w.cm.message_rates from_agent now
    let w1 := { w with cm := { w.cm with message_rates := rl.2 } }
    if rl.1 then
      (false, send_error w1 sock "Rate limit exceeded" now)
    else
      match get_agent_websocket w1 to_agent with
      | none =>
        (false, send_error w1 sock ("Agent " ++ to_agent ++ " not found") now)
      | some target =>
        let message : BusMessage :=
          { type := .direct_message, from_agent := from_agent,
            to_agent := some to_agent, content := d.content, timestamp := now,
            correlation_id := d.correlation_id }
        let w2 := send_message w1 target message
        let confirmation : BusMessage :=
          { type := .ack, from_agent := "bus", to_agent := some from_agent,
            content := .obj [("message", .str ("Message delivered to " ++ to_agent))],
            timestamp := now, correlation_id := d.correlation_id }
        (true, send_message w2 sock confirmation)

/-- Source `handle_broadcast`: validate, consult the rate limiter, then fan out
to every registered agent other than the sender.  The loop body wraps
each delivery in `try/except`, but `send_message` already catches every
exception, so the `except` arm is unreachable: the counter increments
once per recipient attempted, delivered or not. -/
def handle_broadcast (cfg : Config) (w : World) (sock : Sock) (d : MessageData)
    (now : ℚ) : Bool × World :=
  if !(optStrTruthy d.from_agent && d.content.truthy) then
    (false, send_error w sock "Broadcast requires from_agent and content" now)
  else
    let from_agent := d.from_agent.getD ""
    let rl := is_rate_limited cfg w.cm.message_rates from_agent now
    let w1 := { w with cm := { w.cm with message_rates := rl.2 } }
    if rl.1 then
      (false, send_error w1 sock "Rate limit exceeded" now)
    else
      let message : BusMessage :=
        { type := .broadcast, from_agent := from_agent, content := d.content,
          timestamp := now }
      let fan := w1.cm.agents.foldl
        (fun (acc : World × Nat) p =>
          if p.1 ≠ from_agent then
            (send_message acc.1 p.2.websocket message, acc.2 + 1)
          else acc) (w1, 0)
      let confirmation : BusMessage :=
        { type := .ack, from_agent := "bus", to_agent := some from_agent,
          content := .obj [("message",
            .str ("Broadcast delivered to " ++ toString fan.2 ++ " agents"))],
          timestamp := now }
      (true, send_message fan.1 sock confirmation)

/-- Source `handle_ping`: touch `last_ping` when `from_agent` is truthy, then
always reply `PONG` with a timestamp.  No rate-limit check. -/
def handle_ping (w : World) (sock : Sock) (d : MessageData) (now : ℚ) :
    Bool × World :=
  let agent_name := d.from_agent
  let w1 := if optStrTruthy agent_name
            then update_agent_ping w (agent_name.getD "") now else w
  let pong : BusMessage :=
    { type := .pong, from_agent := "bus", to_agent := agent_name,
      content := .obj [("timestamp", .num now)], timestamp := now }
  (true, send_message w1 sock pong)

/-- Source `handle_message`: parse, map the `type` field through the
`MessageType` enum (absent defaults to `"unknown"`), and dispatch.
`JSONDecodeError`/`ValueError` yields "Invalid message format"; a valid
enum member with no handler arm (`pong`, `error`, `ack`, `system`)
falls to the "Unknown message type" reply. -/
def handle_message (cfg : Config) (w : World) (sock : Sock)
    (connection_id : String) (frame : RawFrame) (now : ℚ) : Bool × World :=
  match frame with
  | .malformed => (false, send_error w sock "Invalid message format" now)
  | .parsed d =>
    match messageTypeOfString (d.type.getD "unknown") with
    | none => (false, send_error w sock "Invalid message format" now)
    | some .agent_register => handle_agent_register w sock connection_id d now
    | some .agent_deregister => handle_agent_deregister w sock d now
    | some .direct_message => handle_direct_message cfg w sock d now
    | some .broadcast => handle_broadcast cfg w sock d now
    | some .ping => handle_ping w sock d now
    | some t => (false, send_error w sock ("Unknown message type: " ++ t.pyStr) now)

/-! Section: Connection lifecycle (`AIBus.handle_connection`) -/

/-- Source `websocket.close(...)`: the channel can no longer transmit. -/
def closeSock (w : World) (sock : Sock) : World :=
  { w with channels := fun s =>
      if s = sock then { w.channels sock with healthy := false }
      else w.channels s }

/-- Source `handle_connection`: admit the connection (closing immediately on
quota rejection), run the optional authentication handshake (closing on
failure), then drive the receive loop and, in a `finally` block, release
the connection.  `session` abstracts the receive loop's effect on the
world (each frame handled by `handle_message`, every exception caught);
the raw-JSON auth replies are observational and not modelled.  Note the
two early `return`s sit before the `try`, so the `finally` release runs
only when the loop was reached. -/
def handle_connection (cfg : Config) (w : World) (sock : Sock)
    (connection_id : String) (authRequired : Bool) (authPasses : Bool)
    (session : World → World) : World :=
  match register_connection cfg w sock connection_id with
  | (false, w1) => closeSock w1 sock
  | (true, w1) =>
    if authRequired && !authPasses then closeSock w1 sock
    else deregister_connection (session w1) connection_id sock

/-! Section: Auxiliary counting function for broadcast fan-outs -/

/-- How many deliveries a fan-out over `l` (excluding `ex`) hands to the
channel `t`. -/
def sendFoldHits (l : List (String × AgentInfo)) (ex : Option String)
    (t : Sock) : Nat :=
  match l with
  | [] => 0
  | p :: rest =>
    (if some p.1 ≠ ex ∧ p.2.websocket = t then 1 else 0) + sendFoldHits rest ex t

/-! Section: Spec-level properties under verification -/

/-- The four envelope types the server emits but never consumes. -/
def serverOnly : MessageType → Bool
  | .ack => true
  | .error => true
  | .system => true
  | .pong => true
  | _ => false

/-- The inbound frames the router must reject: malformed JSON, a type
string outside the enum, or a server-only type. -/
def rejectedFrame : RawFrame → Bool
  | .malformed => true
  | .parsed d =>
    match messageTypeOfString (d.type.getD "unknown") with
    | none => true
    | some t => serverOnly t

/-- Per-check behaviour of the rate limiter: the window is pruned to the
trailing 60 seconds; an under-threshold check appends `now` and allows;
an at-threshold check rejects without consuming; other agents' windows
are untouched; a never-seen name starts empty. -/
def RateLimiterProp (cfg : Config) (rates : String → List ℚ) (name : String)
    (now : ℚ) : Prop :=
  let pruned := (rates name).filter (fun t => now - 60 < t)
  let r := is_rate_limited cfg rates name now
  (∀ t ∈ pruned, now - 60 < t) ∧
  (pruned.length < cfg.rateLimit → r.1 = false ∧ r.2 name = pruned ++ [now]) ∧
  (cfg.rateLimit ≤ pruned.length → r.1 = true ∧ r.2 name = pruned) ∧
  (∀ m, m ≠ name → r.2 m = rates m) ∧
  (rates name = [] → 0 < cfg.rateLimit → r.1 = false ∧ r.2 name = [now])

/-- The spec's T=60 scenario: with 60 sends already inside the window,
the 61st send within the same 60-second window is rejected and the
window not consumed; once the window has rolled past 60 seconds the
next send succeeds. -/
def RateScenarioProp (cfg : Config) (name : String) : Prop :=
  ∀ t0 : ℚ,
    (is_rate_limited cfg (fun _ => List.replicate 60 t0) name (t0 + 30)).1 = true ∧
    (is_rate_limited cfg (fun _ => List.replicate 60 t0) name (t0 + 30)).2 name
      = List.replicate 60 t0 ∧
    (is_rate_limited cfg (fun _ => List.replicate 60 t0) name (t0 + 61)).1 = false

/-- What the release path actually does on session close: every agent
bound to the closed websocket is removed from the registry, and no
envelope of any kind (in particular no presence-leave broadcast) is
handed to any channel. -/
def ReleaseNoPresenceProp (w : World) (connection_id : String) (sock : Sock) :
    Prop :=
  let r := deregister_connection w connection_id sock
  r.cm.agents = w.cm.agents.filter (fun p => !(p.2.websocket == sock)) ∧
  r.channels = w.channels

/-- Registration semantics: success, key uniqueness preserved, the name
now resolves to the registering connection's websocket (never the old
session), and every other registered agent with a healthy channel
observes exactly one `agent_joined` system event. -/
def RegisterReplaceProp (w : World) (sock : Sock) (connection_id : String)
    (d : MessageData) (now : ℚ) (name : String) : Prop :=
  let r := handle_agent_register w sock connection_id d now
  let joined : BusMessage :=
    { type := .system, from_agent := "bus",
      content := .obj [("event", .str "agent_joined"),
                       ("agent_name", .str name),
                       ("capabilities", .arr (d.capabilities.map JVal.str))],
      timestamp := now }
  r.1 = true ∧
  (keysOf r.2.cm.agents).Nodup ∧
  (∃ info, listGet r.2.cm.agents name = some info ∧ info.websocket = sock) ∧
  (∀ old, listGet w.cm.agents name = some old → old.websocket ≠ sock →
     get_agent_websocket r.2 name ≠ some old.websocket) ∧
  (∀ p ∈ w.cm.agents, p.1 ≠ name → (w.channels p.2.websocket).healthy = true →
     (r.2.channels p.2.websocket).sent
       = (w.channels p.2.websocket).sent ++ [joined])

/-- Happy-path direct message: the target's channel receives exactly
one `direct_message` envelope with the request's content and
correlation id, the sender's channel receives exactly one `ack`, and
every other channel is untouched. -/
def DirectDeliveryProp (cfg : Config) (w : World) (sock : Sock)
    (d : MessageData) (now : ℚ) (fa ta : String) (target : Sock) : Prop :=
  let r := handle_direct_message cfg w sock d now
  let fwd : BusMessage :=
    { type := .direct_message, from_agent := fa, to_agent := some ta,
      content := d.content, timestamp := now,
      correlation_id := d.correlation_id }
  let ackm : BusMessage :=
    { type := .ack, from_agent := "bus", to_agent := some fa,
      content := .obj [("message", .str ("Message delivered to " ++ ta))],
      timestamp := now, correlation_id := d.correlation_id }
  r.1 = true ∧
  (r.2.channels target).sent = (w.channels target).sent ++ [fwd] ∧
  (r.2.channels sock).sent = (w.channels sock).sent ++ [ackm] ∧
  (∀ s, s ≠ target → s ≠ sock → r.2.channels s = w.channels s)

/-- Direct message to an unregistered target: the sender's channel
receives exactly one `error` envelope from `"bus"`, every other channel
is untouched, and the registry is unchanged. -/
def DirectNotFoundProp (cfg : Config) (w : World) (sock : Sock)
    (d : MessageData) (now : ℚ) (ta : String) : Prop :=
  let r := handle_direct_message cfg w sock d now
  r.1 = false ∧
  (r.2.channels sock).sent = (w.channels sock).sent ++
    [{ type := .error, from_agent := "bus",
       content := .obj [("error", .str ("Agent " ++ ta ++ " not found"))],
       timestamp := now }] ∧
  (∀ s, s ≠ sock → r.2.channels s = w.channels s) ∧
  r.2.cm.agents = w.cm.agents

/-- Rejected inbound frame: the handler reports failure, the sender's
channel receives exactly one `error` envelope from `"bus"`, nothing
else changes, and the session's channel stays open (its health flag
is untouched, the connection-manager state is untouched). -/
def RejectReplyProp (cfg : Config) (w : World) (sock : Sock)
    (connection_id : String) (frame : RawFrame) (now : ℚ) : Prop :=
  let r := handle_message cfg w sock connection_id frame now
  r.1 = false ∧
  r.2.cm = w.cm ∧
  (∃ emsg : String, (r.2.channels sock).sent = (w.channels sock).sent ++
     [{ type := .error, from_agent := "bus",
        content := .obj [("error", .str emsg)], timestamp := now }]) ∧
  (∀ s, s ≠ sock → r.2.channels s = w.channels s) ∧
  (r.2.channels sock).healthy = (w.channels sock).healthy

/-- Ping semantics: always exactly one `PONG` with a timestamp to the
sender, rate windows and connections untouched, and `last_ping` updated
exactly when `from_agent` is truthy and registered. -/
def PingProp (w : World) (sock : Sock) (d : MessageData) (now : ℚ) : Prop :=
  let r := handle_ping w sock d now
  r.1 = true ∧
  (r.2.channels sock).sent = (w.channels sock).sent ++
    [{ type := .pong, from_agent := "bus", to_agent := d.from_agent,
       content := .obj [("timestamp", .num now)], timestamp := now }] ∧
  r.2.cm.message_rates = w.cm.message_rates ∧
  r.2.cm.connections = w.cm.connections ∧
  (optStrTruthy d.from_agent = false → r.2.cm.agents = w.cm.agents) ∧
  (∀ n, d.from_agent = some n → n ≠ "" →
     (listGet w.cm.agents n).isSome = false → r.2.cm.agents = w.cm.agents) ∧
  (∀ n, d.from_agent = some n → n ≠ "" →
     (listGet w.cm.agents n).isSome = true →
     r.2.cm.agents = w.cm.agents.map (fun p =>
       if p.1 = n then (p.1, { p.2 with last_ping := now }) else p)) ∧
  (∀ s, s ≠ sock → r.2.channels s = w.channels s)

/-- What the broadcast fan-out actually does: every registered agent
other than the sender with a healthy channel receives the broadcast
envelope exactly once, broken channels silently receive nothing without
aborting the fan-out, and the sender's `ack` reports a count equal to
the number of registered agents other than the sender — delivered or
not, because `send_message` swallows every delivery failure. -/
def BroadcastFanProp (cfg : Config) (w : World) (sock : Sock)
    (d : MessageData) (now : ℚ) (fa : String) : Prop :=
  let r := handle_broadcast cfg w sock d now
  let bmsg : BusMessage :=
    { type := .broadcast, from_agent := fa, content := d.content,
      timestamp := now }
  r.1 = true ∧
  (∀ p ∈ w.cm.agents, p.1 ≠ fa → (w.channels p.2.websocket).healthy = true →
     (r.2.channels p.2.websocket).sent
       = (w.channels p.2.websocket).sent ++ [bmsg]) ∧
  (∀ p ∈ w.cm.agents, p.1 ≠ fa → (w.channels p.2.websocket).healthy = false →
     (r.2.channels p.2.websocket).sent = (w.channels p.2.websocket).sent) ∧
  (r.2.channels sock).sent = (w.channels sock).sent ++
    [{ type := .ack, from_agent := "bus", to_agent := some fa,
       content := .obj [("message", .str ("Broadcast delivered to "
         ++ toString (w.cm.agents.countP (fun p => p.1 != fa)) ++ " agents"))],
       timestamp := now }]

/-- A direct message whose forward to the target's channel fails is
still acknowledged to the sender: the target receives nothing, yet the
sender's channel receives the delivery-confirmation `ack`. -/
def AckDespiteFailureProp (cfg : Config) (w : World) (sock : Sock)
    (d : MessageData) (now : ℚ) (fa ta : String) (target : Sock) : Prop :=
  let r := handle_direct_message cfg w sock d now
  r.1 = true ∧
  (r.2.channels target).sent = (w.channels target).sent ∧
  (r.2.channels sock).sent = (w.channels sock).sent ++
    [{ type := .ack, from_agent := "bus", to_agent := some fa,
       content := .obj [("message", .str ("Message delivered to " ++ ta))],
       timestamp := now, correlation_id := d.correlation_id }]

/-! Section: Concrete test fixtures -/

/-- An empty connection-manager state. -/
def emptyCM : ConnState :=
  { connections := fun _ => none, agents := [],
    ip_connections := fun _ => none, message_rates := fun _ => [] }

/-- A registry entry binding `name` to websocket `s`. -/
def agentAt (name : String) (s : Sock) : String × AgentInfo :=
  (name, { name := name, websocket := s, connected_at := 0, last_ping := 0,
           capabilities := [], metadata := .obj [], message_count := 0 })

/-- A fresh channel. -/
def chanAt (a : String) (h : Bool) : Channel :=
  { addr := a, healthy := h, sent := [] }

/-- Four test channels; channel 4 is broken. -/
def testChannels : Sock → Channel := fun s =>
  if s = 1 then chanAt "ipA" true
  else if s = 2 then chanAt "ipB" true
  else if s = 3 then chanAt "ipC" true
  else if s = 4 then chanAt "ipD" false
  else chanAt "ipX" true

/-- A world with no connections or agents yet. -/
def wAuth : World := { cm := emptyCM, channels := testChannels }

/-- Alice, Bob, Carol registered plus Dave on the broken channel 4. -/
def wBroadcast : World :=
  { cm := { emptyCM with agents :=
      [agentAt "Alice" 1, agentAt "Bob" 2, agentAt "Carol" 3,
       agentAt "Dave" 4] },
    channels := testChannels }

/-- A broadcast request from Alice. -/
def dBroadcast : MessageData :=
  { type := some "broadcast", from_agent := some "Alice",
    content := .str "hello" }

/-- Alice and Bob registered on healthy channels. -/
def wDirect : World :=
  { cm := { emptyCM with agents := [agentAt "Alice" 1, agentAt "Bob" 2] },
    channels := testChannels }

/-- A direct message Alice → Bob. -/
def dDirect : MessageData :=
  { type := some "direct_message", from_agent := some "Alice",
    to_agent := some "Bob", content := .str "task",
    correlation_id := some "corr-1" }

/-- A direct message Alice → Carol (unregistered in `wDirect`). -/
def dDirectMissing : MessageData := { dDirect with to_agent := some "Carol" }

/-- Alice registered on channel 1, Dave on the broken channel 4. -/
def wDirectBroken : World :=
  { cm := { emptyCM with agents := [agentAt "Alice" 1, agentAt "Dave" 4] },
    channels := testChannels }

/-- A direct message Alice → Dave (whose channel is broken). -/
def dDirectBroken : MessageData := { dDirect with to_agent := some "Dave" }

/-- Alice on session 1 (connection "c1"), Bob on session 2 ("c2"). -/
def wDereg : World :=
  { cm := { emptyCM with
      agents := [agentAt "Alice" 1, agentAt "Bob" 2],
      connections := fun c =>
        if c = "c1" then some 1 else if c = "c2" then some 2 else none,
      ip_connections := fun a =>
        if a = "ipA" then some ["c1"]
        else if a = "ipB" then some ["c2"] else none },
    channels := testChannels }

/-- Alice already registered on the old session 3; connection "c1" is
the new session on websocket 1; Bob watches from websocket 2. -/
def wReg : World :=
  { cm := { emptyCM with
      agents := [agentAt "Alice" 3, agentAt "Bob" 2],
      connections := fun c => if c = "c1" then some 1 else none },
    channels := testChannels }

/-- A registration request for the name Alice. -/
def dReg : MessageData :=
  { type := some "agent_register", agent_name := some "Alice",
    capabilities := ["search"] }

/-- Alice registered on channel 1. -/
def wPing : World :=
  { cm := { emptyCM with agents := [agentAt "Alice" 1] },
    channels := testChannels }

/-- A ping from Alice. -/
def dPing : MessageData := { type := some "ping", from_agent := some "Alice" }

/-- An inbound frame carrying the server-only type `ack`. -/
def frameAck : RawFrame := .parsed { type := some "ack" }

/-! Section: Lemmas about sending -/

theorem send_message_cm (w : World) (s : Sock) (m : BusMessage) :
    (send_message w s m).cm = w.cm := by
  unfold send_message; split <;> rfl

theorem send_message_healthy (w : World) (s t : Sock) (m : BusMessage) :
    ((send_message w s m).channels t).healthy = (w.channels t).healthy := by
  unfold send_message
  split
  · by_cases h : t = s <;> simp [h]
  · rfl

theorem send_message_addr (w : World) (s t : Sock) (m : BusMessage) :
    ((send_message w s m).channels t).addr = (w.channels t).addr := by
  unfold send_message
  split
  · by_cases h : t = s <;> simp [h]
  · rfl

theorem send_message_channel_ne (w : World) (s t : Sock) (m : BusMessage)
    (h : t ≠ s) : (send_message w s m).channels t = w.channels t := by
  unfold send_message; split <;> simp [h]

theorem send_message_sent_self (w : World) (s : Sock) (m : BusMessage) :
    ((send_message w s m).channels s).sent
      = (w.channels s).sent
        ++ (if (w.channels s).healthy then [m] else []) := by
  unfold send_message
  split
  · next h => simp [h]
  · next h => simp at h; simp [h]

/-! Section: Lemmas about fan-out folds -/

theorem sysFold_cm (l : List (String × AgentInfo)) (ex : Option String)
    (m : BusMessage) (w : World) :
    (l.foldl (fun acc p =>
        if some p.1 ≠ ex then send_message acc p.2.websocket m else acc) w).cm
      = w.cm := by
  induction l generalizing w with
  | nil => rfl
  | cons p rest ih =>
    simp only [List.foldl_cons]
    rw [ih]
    split
    · rw [send_message_cm]
    · rfl

theorem sysFold_healthy (l : List (String × AgentInfo)) (ex : Option String)
    (m : BusMessage) (w : World) (t : Sock) :
    (((l.foldl (fun acc p =>
        if some p.1 ≠ ex then send_message acc p.2.websocket m else acc) w).channels t)).healthy
      = ((w.channels t)).healthy := by
  induction l generalizing w with
  | nil => rfl
  | cons p rest ih =>
    simp only [List.foldl_cons]
    rw [ih]
    split
    · rw [send_message_healthy]
    · rfl

theorem sysFold_sent (l : List (String × AgentInfo)) (ex : Option String)
    (m : BusMessage) (w : World) (t : Sock) :
    (((l.foldl (fun acc p =>
        if some p.1 ≠ ex then send_message acc p.2.websocket m else acc) w).channels t)).sent
      = ((w.channels t)).sent
        ++ (if ((w.channels t)).healthy
            then List.replicate (sendFoldHits l ex t) m else []) := by
  induction l generalizing w with
  | nil => simp [sendFoldHits]
  | cons p rest ih =>
    simp only [List.foldl_cons, sendFoldHits]
    rw [ih]
    by_cases hex : some p.1 ≠ ex
    · rw [if_pos hex, send_message_healthy]
      by_cases hws : p.2.websocket = t
      · subst hws
        rw [send_message_sent_self]
        by_cases hh : ((w.channels p.2.websocket)).healthy
        · simp [hh, hex, List.replicate_succ, Nat.add_comm]
        · simp [hh]
      · rw [send_message_channel_ne _ _ _ _ (fun h => hws h.symm)]
        have : ¬(some p.1 ≠ ex ∧ p.2.websocket = t) := fun h => hws h.2
        simp [this]
    · rw [if_neg hex]
      have : ¬(some p.1 ≠ ex ∧ p.2.websocket = t) := fun h => hex h.1
      simp [this]

theorem fanFold_eq (l : List (String × AgentInfo)) (fa : String)
    (m : BusMessage) (w : World) (n : Nat) :
    (l.foldl (fun (acc : World × Nat) p =>
        if p.1 ≠ fa then (send_message acc.1 p.2.websocket m, acc.2 + 1)
        else acc) (w, n))
      = (l.foldl (fun acc p =>
          if some p.1 ≠ some fa then send_message acc p.2.websocket m else acc) w,
         n + l.countP (fun p => p.1 != fa)) := by
  induction l generalizing w n with
  | nil => simp
  | cons p rest ih =>
    simp only [List.foldl_cons, List.countP_cons]
    by_cases h : p.1 = fa
    · have h1 : ¬(p.1 ≠ fa) := fun hc => hc h
      have h2 : ¬(some p.1 ≠ some fa) := by simp [h]
      rw [if_neg h1, if_neg h2, ih]
      simp [h]
    · have h2 : some p.1 ≠ some fa := by simp [h]
      rw [if_pos h, if_pos h2, ih]
      have : (p.1 != fa) = true := by simp [h]
      simp [this, Nat.add_assoc, Nat.add_comm]

theorem sendFoldHits_eq_zero (l : List (String × AgentInfo)) (ex : Option String)
    (t : Sock) (h : t ∉ l.map (fun p => p.2.websocket)) :
    sendFoldHits l ex t = 0 := by
  induction l with
  | nil => rfl
  | cons p rest ih =>
    simp only [List.map_cons, List.mem_cons] at h
    push_neg at h
    have : ¬(some p.1 ≠ ex ∧ p.2.websocket = t) := fun hc => h.1 hc.2.symm
    simp [sendFoldHits, this, ih h.2]

theorem sendFoldHits_eq_one (l : List (String × AgentInfo)) (ex : Option String)
    (p : String × AgentInfo) (hmem : p ∈ l)
    (hnd : (l.map (fun q => q.2.websocket)).Nodup) (hex : some p.1 ≠ ex) :
    sendFoldHits l ex p.2.websocket = 1 := by
  induction l with
  | nil => cases hmem
  | cons q rest ih =>
    simp only [List.map_cons, List.nodup_cons] at hnd
    rcases List.mem_cons.mp hmem with hpq | hmem'
    · subst hpq
      have hz : sendFoldHits rest ex p.2.websocket = 0 := by
        apply sendFoldHits_eq_zero
        exact hnd.1
      simp [sendFoldHits, hex, hz]
    · have hne : q.2.websocket ≠ p.2.websocket := by
        intro hc
        exact hnd.1 (hc ▸ List.mem_map_of_mem (fun r => r.2.websocket) hmem')
      have : ¬(some q.1 ≠ ex ∧ q.2.websocket = p.2.websocket) := fun hc => hne hc.2
      simp [sendFoldHits, this, ih hmem' hnd.2]

/-! Section: Lemmas about the association-list dictionary -/

theorem listGet_isSome_iff (l : List (String × AgentInfo)) (k : String) :
    (listGet l k).isSome = true ↔ k ∈ keysOf l := by
  induction l with
  | nil => simp [listGet, keysOf]
  | cons p rest ih =>
    simp only [listGet, keysOf, List.map_cons, List.mem_cons]
    by_cases h : p.1 = k
    · simp [h]
    · rw [if_neg h]
      rw [keysOf] at ih
      rw [ih]
      constructor
      · exact Or.inr
      · rintro (hc | hm)
        · exact absurd hc.symm h
        · exact hm

theorem listPop_sublist (l : List (String × AgentInfo)) (k : String) :
    List.Sublist (listPop l k) l := by
  induction l with
  | nil => simp [listPop]
  | cons p rest ih =>
    simp only [listPop]
    split
    · exact List.sublist_cons_self p rest
    · exact List.Sublist.cons₂ p ih

theorem listPop_of_not_mem (l : List (String × AgentInfo)) (k : String)
    (h : k ∉ keysOf l) : listPop l k = l := by
  induction l with
  | nil => rfl
  | cons p rest ih =>
    simp only [keysOf, List.map_cons, List.mem_cons] at h
    push_neg at h
    simp only [listPop]
    rw [if_neg (fun hc => h.1 hc.symm), ih h.2]

theorem not_mem_keys_listPop (l : List (String × AgentInfo)) (k : String)
    (hnd : (keysOf l).Nodup) : k ∉ keysOf (listPop l k) := by
  induction l with
  | nil => simp [listPop, keysOf]
  | cons p rest ih =>
    simp only [keysOf, List.map_cons, List.nodup_cons] at hnd
    simp only [listPop]
    split
    · next h => subst h; exact hnd.1
    · next h =>
      simp only [keysOf, List.map_cons, List.mem_cons]
      push_neg
      refine ⟨fun hc => h hc.symm, ih hnd.2⟩

theorem mem_listPop_of_ne (l : List (String × AgentInfo)) (k : String)
    (p : String × AgentInfo) (hne : p.1 ≠ k) :
    p ∈ listPop l k ↔ p ∈ l := by
  induction l with
  | nil => simp [listPop]
  | cons q rest ih =>
    simp only [listPop]
    split
    · next h =>
      simp only [List.mem_cons]
      constructor
      · exact Or.inr
      · rintro (hq | hr)
        · exact absurd (hq ▸ h) hne
        · exact hr
    · next h => simp [List.mem_cons, ih]

theorem listAssign_of_not_mem (l : List (String × AgentInfo)) (k : String)
    (v : AgentInfo) (h : k ∉ keysOf l) : listAssign l k v = l ++ [(k, v)] := by
  induction l with
  | nil => rfl
  | cons p rest ih =>
    simp only [keysOf, List.map_cons, List.mem_cons] at h
    push_neg at h
    simp only [listAssign]
    rw [if_neg (fun hc => h.1 hc.symm), ih h.2]
    rfl

theorem listGet_append_single (l : List (String × AgentInfo)) (k : String)
    (v : AgentInfo) (h : k ∉ keysOf l) :
    listGet (l ++ [(k, v)]) k = some v := by
  induction l with
  | nil => simp [listGet]
  | cons p rest ih =>
    simp only [keysOf, List.map_cons, List.mem_cons] at h
    push_neg at h
    have hstep : listGet ((p :: rest) ++ [(k, v)]) k
        = if p.1 = k then some p.2 else listGet (rest ++ [(k, v)]) k := rfl
    rw [hstep, if_neg (fun hc => h.1 hc.symm)]
    exact ih h.2

/-! Section: Lemmas about the connection-release path -/

theorem deregFold_world (names : List String) (w : World) :
    names.foldl (fun acc n => (deregister_agent acc n).2) w
      = { w with cm := { w.cm with agents := names.foldl listPop w.cm.agents } } := by
  induction names generalizing w with
  | nil => rfl
  | cons n ns ih =>
    simp only [List.foldl_cons]
    rw [ih]
    unfold deregister_agent
    by_cases h : (listGet w.cm.agents n).isSome
    · simp only [h, if_true]
    · simp only [h, Bool.false_eq_true, if_false]
      have hmem : n ∉ keysOf w.cm.agents := by
        intro hc
        exact h ((listGet_isSome_iff _ _).mpr hc)
      rw [listPop_of_not_mem _ _ hmem]

theorem foldPop_cons_of_ne (names : List String) (p : String × AgentInfo)
    (rest : List (String × AgentInfo)) (h : ∀ n ∈ names, n ≠ p.1) :
    names.foldl listPop (p :: rest) = p :: names.foldl listPop rest := by
  induction names generalizing rest with
  | nil => rfl
  | cons n ns ih =>
    simp only [List.foldl_cons]
    have hstep : listPop (p :: rest) n = p :: listPop rest n := by
      simp only [listPop]
      rw [if_neg (fun hc => h n (List.mem_cons_self n ns) hc.symm)]
    rw [hstep, ih _ (fun m hm => h m (List.mem_cons_of_mem n hm))]

theorem foldPop_filter (l : List (String × AgentInfo))
    (P : String × AgentInfo → Bool) (hnd : (keysOf l).Nodup) :
    ((l.filter P).map Prod.fst).foldl listPop l
      = l.filter (fun p => !(P p)) := by
  induction l with
  | nil => rfl
  | cons p rest ih =>
    simp only [keysOf, List.map_cons, List.nodup_cons] at hnd
    by_cases hP : P p
    · simp only [List.filter_cons, hP, if_true, List.map_cons, List.foldl_cons]
      have hpop : listPop (p :: rest) p.1 = rest := by
        simp [listPop]
      rw [hpop, ih hnd.2]
      simp [hP]
    · have hP' : P p = false := by revert hP; cases P p <;> simp
      simp only [List.filter_cons, hP', Bool.false_eq_true, if_false]
      have hmem : ∀ n ∈ (rest.filter P).map Prod.fst, n ≠ p.1 := by
        intro n hn hc
        apply hnd.1
        subst hc
        have hsub : List.Sublist ((rest.filter P).map Prod.fst)
            (rest.map Prod.fst) :=
          List.Sublist.map Prod.fst (List.filter_sublist rest)
        exact hsub.subset hn
      rw [foldPop_cons_of_ne _ _ _ hmem, ih hnd.2]
      simp [hP']

theorem deregister_connection_agents (w : World) (connection_id : String)
    (sock : Sock) (hnd : (keysOf w.cm.agents).Nodup) :
    (deregister_connection w connection_id sock).cm.agents
      = w.cm.agents.filter (fun p => !(p.2.websocket == sock)) := by
  simp only [deregister_connection]
  rw [deregFold_world]
  split
  · exact foldPop_filter _ _ hnd
  · exact foldPop_filter _ _ hnd

theorem deregister_connection_channels (w : World) (connection_id : String)
    (sock : Sock) :
    (deregister_connection w connection_id sock).channels = w.channels := by
  simp only [deregister_connection]
  rw [deregFold_world]
  split
  · rfl
  · rfl

/-! Section: Further small lemmas -/

theorem filter_replicate_pos (n : Nat) (a : ℚ) (p : ℚ → Bool)
    (h : p a = true) :
    (List.replicate n a).filter p = List.replicate n a := by
  induction n with
  | zero => rfl
  | succ k ih => simp [List.replicate_succ, List.filter_cons, h, ih]

theorem filter_replicate_neg (n : Nat) (a : ℚ) (p : ℚ → Bool)
    (h : p a = false) :
    (List.replicate n a).filter p = [] := by
  induction n with
  | zero => rfl
  | succ k ih => simp [List.replicate_succ, List.filter_cons, h, ih]

theorem sendFoldHits_eq_zero_of_excluded (l : List (String × AgentInfo))
    (ex : Option String) (t : Sock)
    (h : ∀ p ∈ l, p.2.websocket = t → some p.1 = ex) :
    sendFoldHits l ex t = 0 := by
  induction l with
  | nil => rfl
  | cons q rest ih =>
    have hq : ¬(some q.1 ≠ ex ∧ q.2.websocket = t) :=
      fun hc => hc.1 (h q (List.mem_cons_self q rest) hc.2)
    simp [sendFoldHits, hq, ih (fun p hp hw => h p (List.mem_cons_of_mem q hp) hw)]

/-! Section: Claim theorems -/

/-- C4: each rate-limit check prunes the agent's window to the trailing
60 seconds, allows and appends `now` when the pruned window is under
the threshold, rejects without consuming otherwise; with T=60 the 61st
send within one window is rejected and a send after the window rolls
past 60 seconds succeeds; never-seen names start with an empty window. -/
theorem rate_limiter_spec (cfg : Config) (rates : String → List ℚ)
    (name : String) (now : ℚ) (hen : cfg.enableRateLimiting = true) :
    RateLimiterProp cfg rates name now ∧
    (cfg.rateLimit = 60 → RateScenarioProp cfg name) := by
  constructor
  · unfold RateLimiterProp is_rate_limited
    rw [hen]
    simp only [Bool.not_true, Bool.false_eq_true, if_false]
    refine ⟨?_, ?_, ?_, ?_, ?_⟩
    · intro t ht
      exact of_decide_eq_true (List.mem_filter.mp ht).2
    · intro hlt
      rw [if_neg (by omega)]
      exact ⟨rfl, by simp⟩
    · intro hle
      rw [if_pos hle]
      exact ⟨rfl, by simp⟩
    · intro m hm
      by_cases hc : cfg.rateLimit
          ≤ ((rates name).filter (fun t => decide (now - 60 < t))).length
      · rw [if_pos hc]
        simp [hm]
      · rw [if_neg hc]
        simp [hm]
    · intro h0 hT
      rw [h0]
      simp only [List.filter_nil, List.length_nil]
      rw [if_neg (by omega)]
      exact ⟨rfl, by simp⟩
  · intro h60
    intro t0
    have hpos : (fun t => decide (t0 + 30 - 60 < t)) t0 = true :=
      decide_eq_true (by linarith)
    have hneg : (fun t => decide (t0 + 61 - 60 < t)) t0 = false :=
      decide_eq_false (by intro hc; linarith)
    refine ⟨?_, ?_, ?_⟩
    · unfold is_rate_limited
      rw [hen]
      simp only [Bool.not_true, Bool.false_eq_true, if_false]
      rw [filter_replicate_pos _ _ _ hpos]
      rw [if_pos (by simp [List.length_replicate, h60])]
    · unfold is_rate_limited
      rw [hen]
      simp only [Bool.not_true, Bool.false_eq_true, if_false]
      rw [filter_replicate_pos _ _ _ hpos]
      rw [if_pos (by simp [List.length_replicate, h60])]
      simp
    · unfold is_rate_limited
      rw [hen]
      simp only [Bool.not_true, Bool.false_eq_true, if_false]
      rw [filter_replicate_neg _ _ _ hneg]
      rw [if_neg (by simp [h60])]

/-- C4 witness: the theorem applied at the default configuration, a
fresh window, agent "Alice" and time 100. -/
theorem rate_limiter_spec_witness :
    ({} : Config).enableRateLimiting = true ∧
    (RateLimiterProp {} (fun _ => []) "Alice" 100 ∧
     (({} : Config).rateLimit = 60 → RateScenarioProp {} "Alice")) :=
  ⟨rfl, rate_limiter_spec {} (fun _ => []) "Alice" 100 rfl⟩

/-- C3 (amended): the release path removes every agent bound to the
closed websocket from the registry but emits no envelope at all — in
particular no `agent_left` presence broadcast; only an explicit
`AGENT_DEREGISTER` emits that event. -/
theorem release_no_presence (w : World) (connection_id : String)
    (sock : Sock) (hnd : (keysOf w.cm.agents).Nodup) :
    ReleaseNoPresenceProp w connection_id sock :=
  ⟨deregister_connection_agents w connection_id sock hnd,
   deregister_connection_channels w connection_id sock⟩

/-- C3 witness: the theorem applied to the world with Alice on the
closed session 1 and Bob remaining on session 2. -/
theorem release_no_presence_witness :
    (keysOf wDereg.cm.agents).Nodup ∧ ReleaseNoPresenceProp wDereg "c1" 1 :=
  ⟨by decide, release_no_presence wDereg "c1" 1 (by decide)⟩

/-- C3 counterexample: closing Alice's session deregisters her, Bob
remains registered, yet Bob's channel receives no envelope — no
`agent_left` system event is broadcast, contrary to the claim. -/
theorem release_emits_no_event_cex :
    listGet (deregister_connection wDereg "c1" 1).cm.agents "Alice" = none ∧
    (listGet (deregister_connection wDereg "c1" 1).cm.agents "Bob").isSome
      = true ∧
    ((deregister_connection wDereg "c1" 1).channels 2).sent = [] :=
  ⟨rfl, rfl, rfl⟩

/-- C1: an admitted connection that fails authentication is closed by
an early `return` that sits before the `try`/`finally`, so
`deregister_connection` never runs: the closed session is still in
`connections` and still occupies its source address's quota slot, even
though its channel is closed. -/
theorem auth_failure_skips_release :
    (handle_connection {} wAuth 1 "c1" true false id).cm.connections "c1"
      = some 1 ∧
    (handle_connection {} wAuth 1 "c1" true false id).cm.ip_connections "ipA"
      = some ["c1"] ∧
    ((handle_connection {} wAuth 1 "c1" true false id).channels 1).healthy
      = false :=
  ⟨rfl, rfl, rfl⟩

/-- C2 counterexample: Alice broadcasts with Bob, Carol and Dave
registered and Dave's channel broken; the two healthy agents receive
the broadcast and Dave receives nothing, yet Alice's ack reports a
delivered count of 3, not 2, because `send_message` swallows the
failure before the loop's counter can see it. -/
theorem broadcast_count_cex :
    ((handle_broadcast {} wBroadcast 1 dBroadcast 0).2.channels 1).sent
      = [{ type := .ack, from_agent := "bus", to_agent := some "Alice",
           content := .obj [("message",
             .str "Broadcast delivered to 3 agents")],
           timestamp := 0 }] ∧
    ((handle_broadcast {} wBroadcast 1 dBroadcast 0).2.channels 2).sent.length
      = 1 ∧
    ((handle_broadcast {} wBroadcast 1 dBroadcast 0).2.channels 3).sent.length
      = 1 ∧
    ((handle_broadcast {} wBroadcast 1 dBroadcast 0).2.channels 4).sent = [] :=
  ⟨rfl, rfl, rfl, rfl⟩

/-- C2 (amended): a validated, rate-admitted broadcast fans out to
every registered agent other than the sender; a broken recipient
channel silently receives nothing and never aborts the remaining
fan-out; every healthy recipient receives the envelope exactly once;
and the sender's ack reports a delivered count equal to the number of
registered agents other than the sender, healthy or not, because
`send_message` swallows per-recipient failures. -/
theorem broadcast_fanout_spec (cfg : Config) (w : World) (sock : Sock)
    (d : MessageData) (now : ℚ) (fa : String)
    (hfa : d.from_agent = some fa) (hne : fa ≠ "")
    (hc : d.content.truthy = true)
    (hlim : (is_rate_limited cfg w.cm.message_rates fa now).1 = false)
    (hndw : (w.cm.agents.map (fun p => p.2.websocket)).Nodup)
    (hsock : ∀ p ∈ w.cm.agents, p.1 ≠ fa → p.2.websocket ≠ sock)
    (hsh : (w.channels sock).healthy = true) :
    BroadcastFanProp cfg w sock d now fa := by
  have h2 : (fa != "") = true := bne_iff_ne.mpr hne
  unfold BroadcastFanProp handle_broadcast
  rw [hfa]
  simp only [optStrTruthy, Option.getD_some, h2, hc, Bool.and_self,
    Bool.not_true, Bool.false_eq_true, if_false, hlim]
  rw [fanFold_eq]
  simp only [Nat.zero_add]
  refine ⟨trivial, ?_, ?_, ?_⟩
  · intro p hp hpf hph
    have hpws : p.2.websocket ≠ sock := hsock p hp hpf
    rw [send_message_channel_ne _ _ _ _ hpws]
    rw [sysFold_sent]
    rw [sendFoldHits_eq_one _ _ p hp hndw (by simpa using hpf)]
    rw [hph]
    simp
  · intro p hp hpf hph
    rw [send_message_channel_ne _ _ _ _ (hsock p hp hpf)]
    rw [sysFold_sent]
    rw [hph]
    simp
  · have h0 : ∀ p ∈ w.cm.agents, p.2.websocket = sock → some p.1 = some fa := by
      intro p hp hw
      by_cases hpf : p.1 = fa
      · exact congrArg some hpf
      · exact absurd hw (hsock p hp hpf)
    rw [send_message_sent_self]
    rw [sysFold_healthy]
    rw [sysFold_sent]
    rw [sendFoldHits_eq_zero_of_excluded _ _ _ h0]
    rw [hsh]
    simp

/-- C2 witness: the amended theorem applied to Alice broadcasting with
Bob and Carol healthy and Dave broken. -/
theorem broadcast_fanout_spec_witness :
    (dBroadcast.from_agent = some "Alice" ∧ ("Alice" : String) ≠ "" ∧
     dBroadcast.content.truthy = true ∧
     (is_rate_limited {} wBroadcast.cm.message_rates "Alice" 0).1 = false ∧
     (wBroadcast.cm.agents.map (fun p => p.2.websocket)).Nodup ∧
     (∀ p ∈ wBroadcast.cm.agents, p.1 ≠ "Alice" → p.2.websocket ≠ 1) ∧
     (wBroadcast.channels 1).healthy = true) ∧
    BroadcastFanProp {} wBroadcast 1 dBroadcast 0 "Alice" :=
  ⟨⟨rfl, by decide, by decide, by decide, by decide, by decide, by decide⟩,
   broadcast_fanout_spec {} wBroadcast 1 dBroadcast 0 "Alice" rfl (by decide)
     (by decide) (by decide) (by decide) (by decide) (by decide)⟩

/-- C6: a validated, rate-admitted direct message to a registered,
healthy target hands the target exactly one `direct_message` envelope
with the request's content and correlation id, hands the sender exactly
one `ack`, and touches no other channel. -/
theorem direct_message_delivery (cfg : Config) (w : World) (sock : Sock)
    (d : MessageData) (now : ℚ) (fa ta : String) (target : Sock)
    (hfa : d.from_agent = some fa) (hne : fa ≠ "")
    (hta : d.to_agent = some ta) (htane : ta ≠ "")
    (hc : d.content.truthy = true)
    (hlim : (is_rate_limited cfg w.cm.message_rates fa now).1 = false)
    (htgt : get_agent_websocket w ta = some target)
    (hth : (w.channels target).healthy = true)
    (hsh : (w.channels sock).healthy = true)
    (hts : target ≠ sock) :
    DirectDeliveryProp cfg w sock d now fa ta target := by
  have h2 : (fa != "") = true := bne_iff_ne.mpr hne
  have h3 : (ta != "") = true := bne_iff_ne.mpr htane
  have htgt' : get_agent_websocket
      { w with cm := { w.cm with message_rates :=
          (is_rate_limited cfg w.cm.message_rates fa now).2 } } ta
      = some target := htgt
  unfold DirectDeliveryProp handle_direct_message
  rw [hfa, hta]
  simp only [optStrTruthy, Option.getD_some, h2, h3, hc, Bool.and_self,
    Bool.and_true, Bool.true_and, Bool.not_true, Bool.false_eq_true, if_false,
    hlim, htgt']
  refine ⟨trivial, ?_, ?_, ?_⟩
  · rw [send_message_channel_ne _ _ _ _ hts]
    rw [send_message_sent_self]
    rw [hth]
    simp
  · rw [send_message_sent_self]
    rw [send_message_healthy]
    rw [send_message_channel_ne _ _ _ _ (fun h => hts h.symm)]
    rw [hsh]
    simp
  · intro s hs1 hs2
    rw [send_message_channel_ne _ _ _ _ hs2]
    rw [send_message_channel_ne _ _ _ _ hs1]

/-- C6 witness: the theorem applied to Alice sending to registered Bob
with correlation id "corr-1". -/
theorem direct_message_delivery_witness :
    (dDirect.from_agent = some "Alice" ∧ ("Alice" : String) ≠ "" ∧
     dDirect.to_agent = some "Bob" ∧ ("Bob" : String) ≠ "" ∧
     dDirect.content.truthy = true ∧
     (is_rate_limited {} wDirect.cm.message_rates "Alice" 7).1 = false ∧
     get_agent_websocket wDirect "Bob" = some 2 ∧
     (wDirect.channels 2).healthy = true ∧
     (wDirect.channels 1).healthy = true ∧ (2 : Sock) ≠ 1) ∧
    DirectDeliveryProp {} wDirect 1 dDirect 7 "Alice" "Bob" 2 :=
  ⟨⟨rfl, by decide, rfl, by decide, by decide, by decide, by decide,
    by decide, by decide, by decide⟩,
   direct_message_delivery {} wDirect 1 dDirect 7 "Alice" "Bob" 2 rfl
     (by decide) rfl (by decide) (by decide) (by decide) (by decide)
     (by decide) (by decide) (by decide)⟩

/-- C7: a validated, rate-admitted direct message to an unregistered
target produces exactly one `error` envelope to the sender; no other
channel receives anything and the registry is unchanged. -/
theorem direct_message_not_found (cfg : Config) (w : World) (sock : Sock)
    (d : MessageData) (now : ℚ) (fa ta : String)
    (hfa : d.from_agent = some fa) (hne : fa ≠ "")
    (hta : d.to_agent = some ta) (htane : ta ≠ "")
    (hc : d.content.truthy = true)
    (hlim : (is_rate_limited cfg w.cm.message_rates fa now).1 = false)
    (htgt : get_agent_websocket w ta = none)
    (hsh : (w.channels sock).healthy = true) :
    DirectNotFoundProp cfg w sock d now ta := by
  have h2 : (fa != "") = true := bne_iff_ne.mpr hne
  have h3 : (ta != "") = true := bne_iff_ne.mpr htane
  have htgt' : get_agent_websocket
      { w with cm := { w.cm with message_rates :=
          (is_rate_limited cfg w.cm.message_rates fa now).2 } } ta
      = none := htgt
  unfold DirectNotFoundProp handle_direct_message send_error
  rw [hfa, hta]
  simp only [optStrTruthy, Option.getD_some, h2, h3, hc, Bool.and_self,
    Bool.and_true, Bool.true_and, Bool.not_true, Bool.false_eq_true, if_false,
    hlim, htgt']
  refine ⟨trivial, ?_, ?_, ?_⟩
  · rw [send_message_sent_self]
    rw [hsh]
    simp
  · intro s hs
    rw [send_message_channel_ne _ _ _ _ hs]
  · rw [send_message_cm]

/-- C7 witness: the theorem applied to Alice sending to unregistered
Carol. -/
theorem direct_message_not_found_witness :
    (dDirectMissing.from_agent = some "Alice" ∧ ("Alice" : String) ≠ "" ∧
     dDirectMissing.to_agent = some "Carol" ∧ ("Carol" : String) ≠ "" ∧
     dDirectMissing.content.truthy = true ∧
     (is_rate_limited {} wDirect.cm.message_rates "Alice" 7).1 = false ∧
     get_agent_websocket wDirect "Carol" = none ∧
     (wDirect.channels 1).healthy = true) ∧
    DirectNotFoundProp {} wDirect 1 dDirectMissing 7 "Carol" :=
  ⟨⟨rfl, by decide, rfl, by decide, by decide, by decide, by decide,
    by decide⟩,
   direct_message_not_found {} wDirect 1 dDirectMissing 7 "Alice" "Carol" rfl
     (by decide) rfl (by decide) (by decide) (by decide) (by decide)
     (by decide)⟩

/-- C10: `send_message` never fails its caller — sending to a broken
channel leaves the world unchanged — and consequently a direct message
whose forward to the target's broken channel is dropped still produces
the delivery-confirmation `ack` to the sender. -/
theorem send_failure_swallowed (cfg : Config) (w : World) (sock : Sock)
    (d : MessageData) (now : ℚ) (fa ta : String) (target : Sock)
    (hfa : d.from_agent = some fa) (hne : fa ≠ "")
    (hta : d.to_agent = some ta) (htane : ta ≠ "")
    (hc : d.content.truthy = true)
    (hlim : (is_rate_limited cfg w.cm.message_rates fa now).1 = false)
    (htgt : get_agent_websocket w ta = some target)
    (hbroken : (w.channels target).healthy = false)
    (hsh : (w.channels sock).healthy = true)
    (hts : target ≠ sock) :
    (∀ (v : World) (s : Sock) (m : BusMessage),
       (v.channels s).healthy = false → send_message v s m = v) ∧
    AckDespiteFailureProp cfg w sock d now fa ta target := by
  constructor
  · intro v s m hb
    unfold send_message
    rw [hb]
    simp
  · have h2 : (fa != "") = true := bne_iff_ne.mpr hne
    have h3 : (ta != "") = true := bne_iff_ne.mpr htane
    have htgt' : get_agent_websocket
        { w with cm := { w.cm with message_rates :=
            (is_rate_limited cfg w.cm.message_rates fa now).2 } } ta
        = some target := htgt
    unfold AckDespiteFailureProp handle_direct_message
    rw [hfa, hta]
    simp only [optStrTruthy, Option.getD_some, h2, h3, hc, Bool.and_self,
      Bool.and_true, Bool.true_and, Bool.not_true, Bool.false_eq_true,
      if_false, hlim, htgt']
    refine ⟨trivial, ?_, ?_⟩
    · rw [send_message_channel_ne _ _ _ _ hts]
      rw [send_message_sent_self]
      rw [hbroken]
      simp
    · rw [send_message_sent_self]
      rw [send_message_healthy]
      rw [send_message_channel_ne _ _ _ _ (fun h => hts h.symm)]
      rw [hsh]
      simp

/-- C10 witness: the theorem applied to Alice sending to Dave, whose
channel 4 is broken: the ack still reaches Alice. -/
theorem send_failure_swallowed_witness :
    (dDirectBroken.from_agent = some "Alice" ∧ ("Alice" : String) ≠ "" ∧
     dDirectBroken.to_agent = some "Dave" ∧ ("Dave" : String) ≠ "" ∧
     dDirectBroken.content.truthy = true ∧
     (is_rate_limited {} wDirectBroken.cm.message_rates "Alice" 7).1
       = false ∧
     get_agent_websocket wDirectBroken "Dave" = some 4 ∧
     (wDirectBroken.channels 4).healthy = false ∧
     (wDirectBroken.channels 1).healthy = true ∧ (4 : Sock) ≠ 1) ∧
    ((∀ (v : World) (s : Sock) (m : BusMessage),
        (v.channels s).healthy = false → send_message v s m = v) ∧
     AckDespiteFailureProp {} wDirectBroken 1 dDirectBroken 7 "Alice" "Dave" 4) :=
  ⟨⟨rfl, by decide, rfl, by decide, by decide, by decide, by decide,
    by decide, by decide, by decide⟩,
   send_failure_swallowed {} wDirectBroken 1 dDirectBroken 7 "Alice" "Dave" 4
     rfl (by decide) rfl (by decide) (by decide) (by decide) (by decide)
     (by decide) (by decide) (by decide)⟩

/-- Any frame whose handling reduces to a single `send_error` reply
satisfies the rejection property. -/
theorem handle_reject_reply (cfg : Config) (w : World) (sock : Sock)
    (connection_id : String) (frame : RawFrame) (now : ℚ) (msg : String)
    (hr : handle_message cfg w sock connection_id frame now
        = (false, send_error w sock msg now))
    (hsh : (w.channels sock).healthy = true) :
    RejectReplyProp cfg w sock connection_id frame now := by
  unfold RejectReplyProp
  rw [hr]
  unfold send_error
  refine ⟨rfl, ?_, ⟨msg, ?_⟩, ?_, ?_⟩
  · rw [send_message_cm]
  · rw [send_message_sent_self, hsh]
    simp
  · intro s hs
    rw [send_message_channel_ne _ _ _ _ hs]
  · rw [send_message_healthy]

/-- C8: an inbound frame that is malformed JSON, an unknown type, or a
server-only type (`ack`, `error`, `system`, `pong`) is answered with
exactly one `error` envelope from `"bus"`, is not processed as a
request (the connection-manager state is untouched), and the session
stays open. -/
theorem rejected_frame_reply (cfg : Config) (w : World) (sock : Sock)
    (connection_id : String) (frame : RawFrame) (now : ℚ)
    (hrej : rejectedFrame frame = true)
    (hsh : (w.channels sock).healthy = true) :
    RejectReplyProp cfg w sock connection_id frame now := by
  cases frame with
  | malformed =>
    exact handle_reject_reply cfg w sock connection_id _ now
      "Invalid message format" rfl hsh
  | parsed d =>
    unfold rejectedFrame at hrej
    cases hmt : messageTypeOfString (d.type.getD "unknown") with
    | none =>
      apply handle_reject_reply cfg w sock connection_id _ now
        "Invalid message format" ?_ hsh
      simp only [handle_message]
      rw [hmt]
    | some t =>
      simp only [hmt] at hrej
      cases t with
      | agent_register => simp [serverOnly] at hrej
      | agent_deregister => simp [serverOnly] at hrej
      | direct_message => simp [serverOnly] at hrej
      | broadcast => simp [serverOnly] at hrej
      | ping => simp [serverOnly] at hrej
      | pong =>
        apply handle_reject_reply cfg w sock connection_id _ now
          ("Unknown message type: " ++ MessageType.pyStr .pong) ?_ hsh
        simp only [handle_message]
        rw [hmt]
      | error =>
        apply handle_reject_reply cfg w sock connection_id _ now
          ("Unknown message type: " ++ MessageType.pyStr .error) ?_ hsh
        simp only [handle_message]
        rw [hmt]
      | ack =>
        apply handle_reject_reply cfg w sock connection_id _ now
          ("Unknown message type: " ++ MessageType.pyStr .ack) ?_ hsh
        simp only [handle_message]
        rw [hmt]
      | system =>
        apply handle_reject_reply cfg w sock connection_id _ now
          ("Unknown message type: " ++ MessageType.pyStr .system) ?_ hsh
        simp only [handle_message]
        rw [hmt]

/-- C8 witness: the theorem applied to an inbound frame of the
server-only type `ack`. -/
theorem rejected_frame_reply_witness :
    (rejectedFrame frameAck = true ∧ (wDirect.channels 1).healthy = true) ∧
    RejectReplyProp {} wDirect 1 "c1" frameAck 0 :=
  ⟨⟨by decide, by decide⟩,
   rejected_frame_reply {} wDirect 1 "c1" frameAck 0 (by decide) (by decide)⟩

/-- C9: a `PING` always produces exactly one `PONG` carrying a
timestamp, leaves every rate window and the connection table untouched,
and updates `last_ping` exactly when `from_agent` is truthy and names a
registered agent — a silent no-op otherwise. -/
theorem ping_semantics (w : World) (sock : Sock) (d : MessageData) (now : ℚ)
    (hsh : (w.channels sock).healthy = true) :
    PingProp w sock d now := by
  cases hdf : d.from_agent with
  | none =>
    unfold PingProp handle_ping
    rw [hdf]
    simp only [optStrTruthy, Bool.false_eq_true, if_false]
    refine ⟨trivial, ?_, ?_, ?_, ?_, ?_, ?_, ?_⟩
    · rw [send_message_sent_self, hsh]
      simp
    · rw [send_message_cm]
    · rw [send_message_cm]
    · intro _
      rw [send_message_cm]
    · intro n hn
      cases hn
    · intro n hn
      cases hn
    · intro s hs
      rw [send_message_channel_ne _ _ _ _ hs]
  | some n =>
    by_cases hn0 : n = ""
    · subst hn0
      unfold PingProp handle_ping
      rw [hdf]
      simp only [optStrTruthy, bne_self_eq_false, Bool.false_eq_true, if_false]
      refine ⟨trivial, ?_, ?_, ?_, ?_, ?_, ?_, ?_⟩
      · rw [send_message_sent_self, hsh]
        simp
      · rw [send_message_cm]
      · rw [send_message_cm]
      · intro _
        rw [send_message_cm]
      · intro n' hn' hne'
        cases hn'
        exact absurd rfl hne'
      · intro n' hn' hne'
        cases hn'
        exact absurd rfl hne'
      · intro s hs
        rw [send_message_channel_ne _ _ _ _ hs]
    · have ht : optStrTruthy (some n) = true := by
        simp [optStrTruthy, hn0]
      unfold PingProp handle_ping update_agent_ping
      rw [hdf]
      simp only [ht, if_true, Option.getD_some]
      by_cases hreg : (listGet w.cm.agents n).isSome
      · simp only [hreg, if_true]
        refine ⟨trivial, ?_, ?_, ?_, ?_, ?_, ?_, ?_⟩
        · rw [send_message_sent_self, hsh]
          simp
        · rw [send_message_cm]
        · rw [send_message_cm]
        · intro h5
          cases h5
        · intro n' hn' hne' hreg'
          cases hn'
          rw [hreg] at hreg'
          cases hreg'
        · intro n' hn' hne' hreg'
          cases hn'
          rw [send_message_cm]
        · intro s hs
          rw [send_message_channel_ne _ _ _ _ hs]
      · simp only [hreg, Bool.false_eq_true, if_false]
        refine ⟨trivial, ?_, ?_, ?_, ?_, ?_, ?_, ?_⟩
        · rw [send_message_sent_self, hsh]
          simp
        · rw [send_message_cm]
        · rw [send_message_cm]
        · intro h5
          cases h5
        · intro n' hn' hne' hreg'
          rw [send_message_cm]
        · intro n' hn' hne' hreg'
          cases hn'
          rw [hreg'] at hreg
          exact absurd rfl hreg
        · intro s hs
          rw [send_message_channel_ne _ _ _ _ hs]

/-- C9 witness: the theorem applied to a ping from registered Alice. -/
theorem ping_semantics_witness :
    (wPing.channels 1).healthy = true ∧ PingProp wPing 1 dPing 9 :=
  ⟨by decide, ping_semantics wPing 1 dPing 9 (by decide)⟩

/-- On a known connection, `register_agent` succeeds and the new
registry is the old one with any record of the same name evicted and
the fresh record appended; the surviving prefix keeps its key
uniqueness, does not contain the name, is a sublist of the old
registry, and contains every old entry with a different name. -/
theorem register_agent_result (w : World) (connection_id : String)
    (name : String) (caps : List String) (meta : JVal) (now : ℚ) (sock : Sock)
    (hconn : w.cm.connections connection_id = some sock)
    (hndk : (keysOf w.cm.agents).Nodup) :
    ∃ l₁ : List (String × AgentInfo),
      register_agent w connection_id name caps meta now
        = (true, { w with cm := { w.cm with agents := l₁ ++ [(name,
            { name := name, websocket := sock, connected_at := now,
              last_ping := now, capabilities := caps, metadata := meta,
              message_count := 0 })] } }) ∧
      (keysOf l₁).Nodup ∧ name ∉ keysOf l₁ ∧
      List.Sublist l₁ w.cm.agents ∧
      (∀ p ∈ w.cm.agents, p.1 ≠ name → p ∈ l₁) := by
  by_cases hpres : (listGet w.cm.agents name).isSome
  · refine ⟨listPop w.cm.agents name, ?_, ?_, ?_, ?_, ?_⟩
    · unfold register_agent deregister_agent
      rw [hconn]
      simp only [hpres, if_true]
      rw [listAssign_of_not_mem _ _ _ (not_mem_keys_listPop _ _ hndk)]
    · exact List.Nodup.sublist
        (List.Sublist.map Prod.fst (listPop_sublist _ _)) hndk
    · exact not_mem_keys_listPop _ _ hndk
    · exact listPop_sublist _ _
    · intro p hp hne
      exact (mem_listPop_of_ne _ _ _ hne).mpr hp
  · have hnot : name ∉ keysOf w.cm.agents :=
      fun hc => hpres ((listGet_isSome_iff _ _).mpr hc)
    refine ⟨w.cm.agents, ?_, hndk, hnot, List.Sublist.refl _, fun p hp _ => hp⟩
    unfold register_agent
    rw [hconn]
    simp only [hpres, Bool.false_eq_true, if_false]
    rw [listAssign_of_not_mem _ _ _ hnot]

/-- C5: at most one record per name is preserved, registering a name
already present evicts the old record first so lookup resolves only to
the new session, and every other registered agent observes exactly one
`agent_joined` system event per registration call. -/
theorem register_replaces (w : World) (sock : Sock) (connection_id : String)
    (d : MessageData) (now : ℚ) (name : String)
    (hn : d.agent_name = some name) (hne : name ≠ "")
    (hconn : w.cm.connections connection_id = some sock)
    (hndk : (keysOf w.cm.agents).Nodup)
    (hndw : (w.cm.agents.map (fun p => p.2.websocket)).Nodup)
    (hother : ∀ p ∈ w.cm.agents, p.1 ≠ name → p.2.websocket ≠ sock) :
    RegisterReplaceProp w sock connection_id d now name := by
  obtain ⟨l₁, hreg, hk₁, hn₁, hsub₁, hmem₁⟩ :=
    register_agent_result w connection_id name d.capabilities d.metadata now
      sock hconn hndk
  have h2 : (name != "") = true := bne_iff_ne.mpr hne
  have hl₁w : ∀ q ∈ l₁, q ∈ w.cm.agents := fun q hq => hsub₁.subset hq
  have hl₁name : ∀ q ∈ l₁, q.1 ≠ name := by
    intro q hq hc
    exact hn₁ (hc ▸ List.mem_map_of_mem Prod.fst hq)
  have hl₁sock : ∀ q ∈ l₁, q.2.websocket ≠ sock :=
    fun q hq => hother q (hl₁w q hq) (hl₁name q hq)
  have hk₂ : (keysOf (l₁ ++ [(name,
      ({ name := name, websocket := sock, connected_at := now,
         last_ping := now, capabilities := d.capabilities,
         metadata := d.metadata, message_count := 0 } : AgentInfo))])).Nodup := by
    unfold keysOf
    rw [List.map_append, List.nodup_append]
    refine ⟨hk₁, List.nodup_singleton _, ?_⟩
    intro a ha hb
    rw [List.map_singleton, List.mem_singleton] at hb
    subst hb
    exact hn₁ ha
  have hndw₁ : (l₁.map (fun q => q.2.websocket)).Nodup :=
    List.Nodup.sublist (List.Sublist.map _ hsub₁) hndw
  have hsockl₁ : sock ∉ l₁.map (fun q => q.2.websocket) := by
    intro hc
    obtain ⟨q, hq, hqws⟩ := List.mem_map.mp hc
    exact hl₁sock q hq hqws
  have hndw₂ : ((l₁ ++ [(name,
      ({ name := name, websocket := sock, connected_at := now,
         last_ping := now, capabilities := d.capabilities,
         metadata := d.metadata, message_count := 0 } : AgentInfo))]).map
        (fun q => q.2.websocket)).Nodup := by
    rw [List.map_append, List.nodup_append]
    refine ⟨hndw₁, List.nodup_singleton _, ?_⟩
    intro a ha hb
    rw [List.map_singleton, List.mem_singleton] at hb
    subst hb
    exact hsockl₁ ha
  unfold RegisterReplaceProp handle_agent_register
  rw [hn]
  simp only [optStrTruthy, Option.getD_some, h2, Bool.not_true,
    Bool.false_eq_true, if_false]
  rw [hreg]
  dsimp only
  unfold broadcast_system_message
  refine ⟨rfl, ?_, ?_, ?_, ?_⟩
  · rw [sysFold_cm, send_message_cm]
    exact hk₂
  · exact ⟨_, by rw [sysFold_cm, send_message_cm]; exact
      listGet_append_single l₁ name _ hn₁, rfl⟩
  · intro old hold holdws
    unfold get_agent_websocket
    rw [sysFold_cm, send_message_cm]
    rw [listGet_append_single l₁ name _ hn₁]
    intro hc
    injection hc with h
    exact holdws h.symm
  · intro p hp hpname hph
    have hpmem : p ∈ l₁ := hmem₁ p hp hpname
    have hpws : p.2.websocket ≠ sock := hother p hp hpname
    rw [sysFold_sent]
    rw [send_message_channel_ne _ _ _ _ hpws]
    rw [send_message_cm]
    rw [hph]
    rw [sendFoldHits_eq_one _ _ p (List.mem_append_left _ hpmem) hndw₂
      (by simpa using hpname)]
    simp

/-- C5 witness: the theorem applied to re-registering Alice (old
session 3) from connection "c1" on websocket 1, with Bob watching on
websocket 2. -/
theorem register_replaces_witness :
    (dReg.agent_name = some "Alice" ∧ ("Alice" : String) ≠ "" ∧
     wReg.cm.connections "c1" = some 1 ∧
     (keysOf wReg.cm.agents).Nodup ∧
     (wReg.cm.agents.map (fun p => p.2.websocket)).Nodup ∧
     (∀ p ∈ wReg.cm.agents, p.1 ≠ "Alice" → p.2.websocket ≠ 1)) ∧
    RegisterReplaceProp wReg 1 "c1" dReg 5 "Alice" :=
  ⟨⟨rfl, by decide, by decide, by decide, by decide, by decide⟩,
   register_replaces wReg 1 "c1" dReg 5 "Alice" rfl (by decide) (by decide)
     (by decide) (by decide) (by decide)⟩

end AIBus
